import Mathlib

set_option maxRecDepth 100000

/-!
Shallow embedding of `scripts/process_voice_prompt.py` (a CLI that shells out
to ffmpeg to clean up voice recordings), together with proofs settling the
frozen claims about its specification.

Modelling conventions:
* The mutable `VoicePromptProcessor` object is a record of its fields set in
  `__init__`; the command-line overrides in `main` are explicit record updates.
* The outside world (ffmpeg availability, the filesystem, child-process
  outcomes) is an explicit `Env` record of oracles; `subprocess.run` is the
  oracle `Env.run`, returning the child's exit status and captured stderr.
* A run's observable behaviour is the process exit code, the list of argv
  vectors of the child processes it attempts to spawn (in order), and the
  list of messages it prints.
* Python string truthiness (`if args.x:`) is modelled as `≠ ""`.
* Sizes are read as natural numbers of bytes; the size-report arithmetic of
  lines 154-156 is carried out in ℚ (the claim set treats the float
  computation in exact rational arithmetic).
* `pathlib.PurePosixPath` is modelled by `PurePath` below: parsing splits on
  the slash character and drops empty and dot components (the POSIX
  double-leading-slash corner of pathlib is not distinguished); `stem` and
  `suffix` follow CPython's last-dot rule.
-/

/-- Fields of `VoicePromptProcessor.__init__` (lines 30-51). -/
structure VoicePromptProcessor where
  silence_threshold : String
  silence_duration : String
  max_silence_duration : String
  target_loudness : String
  eq_filters : List String
  noise_reduction : String
  compressor : String
deriving DecidableEq, Repr

/-- The defaults assigned in `__init__` (lines 30-51). -/
def VoicePromptProcessor.new : VoicePromptProcessor where
  silence_threshold := "-40dB"
  silence_duration := "0.5"
  max_silence_duration := "0.5"
  target_loudness := "-16"
  eq_filters :=
    ["highpass=f=100",
     "lowpass=f=10000",
     "equalizer=f=150:t=q:w=1:g=-3",
     "equalizer=f=200:t=q:w=1:g=-2",
     "equalizer=f=3000:t=q:w=2:g=3"]
  noise_reduction := "afftdn=nf=-25"
  compressor := "acompressor=threshold=-20dB:ratio=4:attack=5:release=50"

/-- The `silenceremove` stage built at lines 94-103. -/
def silenceremoveFilter (p : VoicePromptProcessor) : String :=
  "silenceremove=" ++
  "start_periods=1:" ++
  "start_silence=" ++ p.silence_duration ++ ":" ++
  "start_threshold=" ++ p.silence_threshold ++ ":" ++
  "stop_periods=-1:" ++
  "stop_silence=" ++ p.silence_duration ++ ":" ++
  "stop_threshold=" ++ p.silence_threshold ++ ":" ++
  "detection=peak"

/-- The `loudnorm` stage built at line 114. -/
def loudnormFilter (p : VoicePromptProcessor) : String :=
  "loudnorm=I=" ++ p.target_loudness ++ ":TP=-1.5:LRA=11"

/-- `build_filter_chain` (lines 85-116): successive appends to `filters`,
then `",".join(filters)`. -/
def build_filter_chain (p : VoicePromptProcessor) : String :=
  let filters : List String := []
  let filters := filters ++ [p.noise_reduction]
  let filters := filters ++ [silenceremoveFilter p]
  let filters := filters ++ p.eq_filters
  let filters := filters ++ [p.compressor]
  let filters := filters ++ [loudnormFilter p]
  String.intercalate "," filters

/-- Command-line arguments after `argparse` (lines 196-235).  `output` is
`none` when the optional positional is absent. -/
structure Args where
  input : String
  output : Option String
  verbose : Bool
  analyze : Bool
  silence_threshold : String := "-35dB"
  silence_duration : String := "0.4"
  target_loudness : String := "-16"
deriving DecidableEq, Repr

/-- The override block of `main` (lines 240-246); `if args.x:` is Python
string truthiness, i.e. the override applies when the value is non-empty. -/
def applyOverrides (p : VoicePromptProcessor) (a : Args) : VoicePromptProcessor :=
  let p := if a.silence_threshold ≠ "" then { p with silence_threshold := a.silence_threshold } else p
  let p := if a.silence_duration ≠ "" then { p with silence_duration := a.silence_duration } else p
  if a.target_loudness ≠ "" then { p with target_loudness := a.target_loudness } else p

/-- The processor state `main` uses after constructing it and applying the
command-line overrides (lines 238-246). -/
def effectiveConfig (a : Args) : VoicePromptProcessor :=
  applyOverrides VoicePromptProcessor.new a

/-- The size-report arithmetic of lines 154-156, in exact rational
arithmetic: sizes are converted from bytes to megabytes by dividing by 1024
twice, and the reduction percentage is computed on the megabyte values. -/
def sizeReduction (inputBytes outputBytes : ℚ) : ℚ :=
  let input_size := inputBytes / 1024 / 1024
  let output_size := outputBytes / 1024 / 1024
  ((input_size - output_size) / input_size) * 100

/-- Splitting a character list at every occurrence of `c` (the grouping
underlying POSIX path parsing and CPython's last-dot suffix rule). -/
def splitc (c : Char) : List Char → List (List Char)
  | [] => [[]]
  | a :: rest =>
    let r := splitc c rest
    if a = c then [] :: r else (a :: r.headD []) :: r.tail

/-- Joining groups with a single separator character. -/
def joinSep (c : Char) : List (List Char) → List Char
  | [] => []
  | [p] => p
  | p :: q :: ps => p ++ c :: joinSep c (q :: ps)

/-- `pathlib.PurePosixPath`: a root flag plus normalized components; parsing
drops empty and `.` components (the POSIX double-leading-slash corner is not
distinguished). -/
structure PurePath where
  absolute : Bool
  parts : List (List Char)
deriving DecidableEq, Repr

/-- The normalized components of a character sequence. -/
def pathPartsOf (l : List Char) : List (List Char) :=
  (splitc '/' l).filter fun p => decide (p ≠ [] ∧ p ≠ ['.'])

/-- `Path(s)`. -/
def parsePath (s : String) : PurePath where
  absolute := decide (s.data.head? = some '/')
  parts := pathPartsOf s.data

/-- `str(path)`. -/
def PurePath.render (p : PurePath) : List Char :=
  if p.absolute then '/' :: joinSep '/' p.parts
  else if p.parts = [] then ['.']
  else joinSep '/' p.parts

def PurePath.toStr (p : PurePath) : String := ⟨p.render⟩

/-- `path.name` (the last component; empty for a root or the dot path). -/
def PurePath.name (p : PurePath) : List Char := p.parts.getLastD []

/-- `path.parent`. -/
def PurePath.parent (p : PurePath) : PurePath := { p with parts := p.parts.dropLast }

/-- `path / child` with a string child. -/
def PurePath.child (p : PurePath) (c : List Char) : PurePath :=
  if c.head? = some '/' then { absolute := true, parts := pathPartsOf c }
  else { p with parts := p.parts ++ pathPartsOf c }

/-- CPython's `PurePath.suffix` rule on a file name: the segment from the
last dot on, provided that dot is neither the first nor the last character
of the name. -/
def nameSuffix (name : List Char) : List Char :=
  if (splitc '.' name).length ≤ 1 then []
  else if (splitc '.' name).getLastD [] ≠ [] ∧ joinSep '.' (splitc '.' name).dropLast ≠ []
  then '.' :: (splitc '.' name).getLastD []
  else []

/-- CPython's `PurePath.stem`: the name with its suffix removed. -/
def nameStem (name : List Char) : List Char :=
  name.take (name.length - (nameSuffix name).length)

/-- Lines 261-262 of `main`: the default output path
`str(input_path.parent / (input_path.stem + "_processed" + input_path.suffix))`. -/
def defaultOutputFile (input : String) : String :=
  let input_path := parsePath input
  (input_path.parent.child
      (nameStem input_path.name ++ "_processed".data ++ nameSuffix input_path.name)).toStr

/-- Outcome of one `subprocess.run` invocation: the child's exit status and
its captured standard-error text. -/
structure ProcResult where
  exitCode : Nat
  stderrText : String

/-- The oracle environment a run executes against: whether the engine probe
succeeds, which files exist, the outcome of each child invocation, and the
byte size of each file at report time. -/
structure Env where
  ffmpegAvailable : Bool
  fileExists : String → Bool
  run : List String → ProcResult
  fileSize : String → Nat

/-- The probe argv of lines 56-61. -/
def probeCmd : List String := ["ffmpeg", "-version"]

/-- `check_ffmpeg` (lines 53-65): the probe subprocess succeeds iff the
engine is available; both `CalledProcessError` and `FileNotFoundError`
yield `False` (after printing the error message, folded into `mainRun`). -/
def check_ffmpeg (env : Env) : Bool := env.ffmpegAvailable

def ffmpegMissingMsg : String :=
  "Error: ffmpeg not found. Please install ffmpeg to use this script."

/-- Substring test (Python `pat in s`). -/
def occursIn (pat : List Char) : List Char → Bool
  | [] => pat.isEmpty
  | a :: rest => pat.isPrefixOf (a :: rest) || occursIn pat rest

def occursInS (pat s : String) : Bool := occursIn pat.data s.data

/-- Python `str` of a list of strings, as interpolated by
`CalledProcessError.__str__` via `"Command '%s' ..." % cmd` (quote escaping
inside arguments is not modelled; no argument built here contains one). -/
def pyListRepr (xs : List String) : String :=
  "[" ++ String.intercalate ", " (xs.map fun s => "\x27" ++ s ++ "\x27") ++ "]"

/-- `subprocess.CalledProcessError.__str__` for a positive return code: it
names the command and the exit status; the captured stderr is stored on the
exception object but is not part of its string form. -/
def calledProcessErrorStr (cmd : List String) (returncode : Nat) : String :=
  "Command \x27" ++ pyListRepr cmd ++ "\x27 returned non-zero exit status " ++
    toString returncode ++ "."

/-- The message of line 121. -/
def inputNotFoundMsg (input_file : String) : String :=
  "Error: Input file \x27" ++ input_file ++ "\x27 not found."

/-- The processing argv (lines 126-136). -/
def processCmdBase (filter_chain input_file output_file : String) : List String :=
  ["ffmpeg",
   "-i", input_file,
   "-af", filter_chain,
   "-ar", "44100",
   "-ac", "1",
   "-c:a", "libmp3lame",
   "-b:a", "96k",
   "-y",
   output_file]

/-- In quiet mode `-loglevel error` is inserted at positions 1 and 2
(lines 142-145). -/
def processCmd (filter_chain input_file output_file : String) (verbose : Bool) : List String :=
  let cmd := processCmdBase filter_chain input_file output_file
  if verbose then cmd
  else
    match cmd with
    | [] => ["-loglevel", "error"]
    | x :: rest => x :: "-loglevel" :: "error" :: rest

structure ProcessResult where
  success : Bool
  spawned : List (List String)
  printed : List String
  report : Option (ℚ × ℚ × ℚ)

/-- `process_audio` (lines 118-164).  The success-path size line of line 158
is modelled structurally in `report` as the two megabyte-scaled sizes and the
reduction percentage (float formatting elided); all other user-facing output
is in `printed`. -/
def process_audio (env : Env) (p : VoicePromptProcessor)
    (input_file output_file : String) (verbose : Bool) : ProcessResult :=
  if env.fileExists input_file = false then
    { success := false, spawned := [],
      printed := [inputNotFoundMsg input_file], report := none }
  else
    let filter_chain := build_filter_chain p
    let cmd := processCmd filter_chain input_file output_file verbose
    let pre : List String :=
      if verbose then
        ["Processing: " ++ input_file, "Output: " ++ output_file,
         "Filter chain: " ++ filter_chain]
      else []
    let r := env.run cmd
    if r.exitCode = 0 then
      let post : List String := if verbose then ["✓ Processing complete!"] else []
      let input_size : ℚ := (env.fileSize input_file : ℚ)
      let output_size : ℚ := (env.fileSize output_file : ℚ)
      { success := true, spawned := [cmd], printed := pre ++ post,
        report := some (input_size / 1024 / 1024, output_size / 1024 / 1024,
          sizeReduction input_size output_size) }
    else
      { success := false, spawned := [cmd],
        printed := pre ++ ["Error processing audio: " ++ calledProcessErrorStr cmd r.exitCode],
        report := none }

/-- Python `s.split(sep)` for a one-character separator, used on the
captured stderr text (structurally recursive so that concrete runs
evaluate). -/
def splitLines (c : Char) (s : String) : List String :=
  (splitc c s.data).map fun l => ⟨l⟩

/-- The analysis argv (lines 168-174): `silencedetect` into the null muxer
writing to `-`; no output path appears. -/
def analyzeCmd (p : VoicePromptProcessor) (input_file : String) : List String :=
  ["ffmpeg",
   "-i", input_file,
   "-af", "silencedetect=noise=" ++ p.silence_threshold ++ ":d=" ++ p.silence_duration,
   "-f", "null",
   "-"]

structure AnalyzeResult where
  spawned : List (List String)
  printed : List String

/-- `analyze_silence` (lines 166-193): header, the invocation, then either
the filtered silence lines with a count, or the error message; the function
returns `None` either way. -/
def analyze_silence (env : Env) (p : VoicePromptProcessor) (input_file : String) :
    AnalyzeResult :=
  let cmd := analyzeCmd p input_file
  let header : List String :=
    ["Analyzing silence patterns in: " ++ input_file,
     "Threshold: " ++ p.silence_threshold ++ ", Min duration: " ++ p.silence_duration ++ "s"]
  let r := env.run cmd
  if r.exitCode = 0 then
    let lines := splitLines '\n' r.stderrText
    let shown := lines.filter fun l => occursInS "silencedetect" l && occursInS "silence_" l
    let silence_events := shown.filter fun l => occursInS "silence_duration" l
    { spawned := [cmd],
      printed := header ++ shown ++
        ["Total silence periods detected: " ++ toString silence_events.length] }
  else
    { spawned := [cmd],
      printed := header ++ ["Error analyzing silence: " ++ calledProcessErrorStr cmd r.exitCode] }

/-- Output-path determination of lines 257-262 (`if args.output:` is string
truthiness). -/
def effOutput (a : Args) : String :=
  match a.output with
  | some o => if o ≠ "" then o else defaultOutputFile a.input
  | none => defaultOutputFile a.input

structure RunResult where
  exitCode : Nat
  spawned : List (List String)
  printed : List String
deriving DecidableEq, Repr

/-- `main` (lines 196-267): construct the processor, apply the overrides,
probe the engine, then take the analysis branch or the processing branch;
`sys.exit(main())` makes the returned value the process exit code. -/
def mainRun (env : Env) (a : Args) : RunResult :=
  let processor := effectiveConfig a
  if check_ffmpeg env = false then
    { exitCode := 1, spawned := [probeCmd], printed := [ffmpegMissingMsg] }
  else if a.analyze then
    let r := analyze_silence env processor a.input
    { exitCode := 0, spawned := probeCmd :: r.spawned, printed := r.printed }
  else
    let output_file := effOutput a
    let r := process_audio env processor a.input output_file a.verbose
    { exitCode := if r.success then 0 else 1,
      spawned := probeCmd :: r.spawned, printed := r.printed }

/-- A probe-failing environment (the engine binary is unavailable). -/
def envProbeFail : Env := ⟨false, fun _ => true, fun _ => ⟨0, ""⟩, fun _ => 0⟩

/-- An environment in which every input is missing. -/
def envNoInput : Env := ⟨true, fun _ => false, fun _ => ⟨0, ""⟩, fun _ => 0⟩

/-- An environment in which every engine invocation fails with exit status 1
and the diagnostic text `Conversion failed!` on stderr. -/
def envEngineFail : Env := ⟨true, fun _ => true, fun _ => ⟨1, "Conversion failed!"⟩, fun _ => 0⟩

/-- A quiet processing-mode argument vector with an explicit output path. -/
def argsProcess : Args :=
  { input := "in.mp3", output := some "out.mp3", verbose := false, analyze := false }

/-- An analysis-mode argument vector. -/
def argsAnalyze : Args :=
  { input := "in.mp3", output := none, verbose := false, analyze := true }

/-- A quiet processing-mode argument vector naming a missing input. -/
def argsMissing : Args :=
  { input := "missing.mp3", output := none, verbose := false, analyze := false }

/-- An analysis-mode argument vector naming a missing input. -/
def argsMissingAnalyze : Args :=
  { input := "missing.mp3", output := none, verbose := false, analyze := true }

theorem splitc_ne_nil (c : Char) (l : List Char) : splitc c l ≠ [] := by
  induction l with
  | nil => simp [splitc]
  | cons a rest ih =>
    rw [splitc]
    by_cases hac : a = c <;> simp [hac]

theorem getLastD_mem {α : Type} (l : List α) (d : α) (h : l ≠ []) : l.getLastD d ∈ l := by
  cases l with
  | nil => exact absurd rfl h
  | cons a as =>
    rw [List.getLastD_eq_getLast?, List.getLast?_eq_getLast (a :: as) (by simp)]
    exact List.getLast_mem _

theorem splitc_sep_not_mem (c : Char) (l : List Char) :
    ∀ p ∈ splitc c l, c ∉ p := by
  induction l with
  | nil =>
    intro p hp
    simp [splitc] at hp
    simp [hp]
  | cons a rest ih =>
    intro p hp
    rw [splitc] at hp
    cases h : splitc c rest with
    | nil => exact absurd h (splitc_ne_nil c rest)
    | cons g gs =>
      rw [h] at hp
      by_cases hac : a = c
      · rw [if_pos hac] at hp
        rcases List.mem_cons.mp hp with rfl | hp2
        · simp
        · exact ih p (h ▸ hp2)
      · rw [if_neg hac] at hp
        rcases List.mem_cons.mp hp with rfl | hp2
        · intro hc
          rcases List.mem_cons.mp hc with rfl | hc2
          · exact hac rfl
          · exact ih g (h ▸ List.mem_cons_self g gs) hc2
        · exact ih p (h ▸ List.mem_cons_of_mem g (by simpa using hp2))

theorem mem_of_mem_splitc (c : Char) (l : List Char) :
    ∀ p ∈ splitc c l, ∀ x ∈ p, x ∈ l := by
  induction l with
  | nil =>
    intro p hp x hx
    simp [splitc] at hp
    subst hp
    simp at hx
  | cons a rest ih =>
    intro p hp x hx
    rw [splitc] at hp
    cases h : splitc c rest with
    | nil => exact absurd h (splitc_ne_nil c rest)
    | cons g gs =>
      rw [h] at hp
      by_cases hac : a = c
      · rw [if_pos hac] at hp
        rcases List.mem_cons.mp hp with rfl | hp2
        · simp at hx
        · exact List.mem_cons_of_mem a (ih p (h ▸ hp2) x hx)
      · rw [if_neg hac] at hp
        rcases List.mem_cons.mp hp with rfl | hp2
        · rcases List.mem_cons.mp hx with rfl | hx2
          · exact List.mem_cons_self x rest
          · exact List.mem_cons_of_mem a (ih g (h ▸ List.mem_cons_self g gs) x hx2)
        · exact List.mem_cons_of_mem a
            (ih p (h ▸ List.mem_cons_of_mem g (by simpa using hp2)) x hx)

theorem splitc_of_not_mem (c : Char) (l : List Char) (h : c ∉ l) : splitc c l = [l] := by
  induction l with
  | nil => rfl
  | cons a rest ih =>
    have hac : a ≠ c := fun e => h (e ▸ List.mem_cons_self a rest)
    have hrest : c ∉ rest := fun e => h (List.mem_cons_of_mem a e)
    rw [splitc, ih hrest]
    simp [hac]

theorem splitc_append (c : Char) (l₁ l₂ : List Char) (h : c ∉ l₁) :
    splitc c (l₁ ++ c :: l₂) = l₁ :: splitc c l₂ := by
  induction l₁ with
  | nil =>
    rw [List.nil_append, splitc, if_pos rfl]
  | cons a l₁ ih =>
    have hac : a ≠ c := fun e => h (e ▸ List.mem_cons_self a l₁)
    have hl₁ : c ∉ l₁ := fun e => h (List.mem_cons_of_mem a e)
    rw [List.cons_append, splitc, ih hl₁]
    simp [hac]

theorem joinSep_cons (c : Char) (p q : List Char) (ps : List (List Char)) :
    joinSep c (p :: q :: ps) = p ++ c :: joinSep c (q :: ps) := rfl

theorem splitc_joinSep (c : Char) (ps : List (List Char)) (hne : ps ≠ [])
    (h : ∀ p ∈ ps, c ∉ p) : splitc c (joinSep c ps) = ps := by
  induction ps with
  | nil => exact absurd rfl hne
  | cons p ps ih =>
    cases ps with
    | nil => exact splitc_of_not_mem c p (h p (List.mem_cons_self p []))
    | cons q ps2 =>
      rw [joinSep_cons, splitc_append c p _ (h p (List.mem_cons_self p _)),
        ih (by simp) (fun r hr => h r (List.mem_cons_of_mem p hr))]

theorem joinSep_head (c : Char) (p : List Char) (ps : List (List Char)) (hp : p ≠ []) :
    (joinSep c (p :: ps)).head? = p.head? := by
  cases ps with
  | nil => rfl
  | cons q ps2 =>
    rw [joinSep_cons]
    cases p with
    | nil => exact absurd rfl hp
    | cons x xs => rfl

/-- Parsing the rendered form of a path whose components are normalized
(non-empty, not `.`, slash-free) recovers the path. -/
theorem parsePath_toStr (b : Bool) (ps : List (List Char))
    (h : ∀ p ∈ ps, p ≠ [] ∧ p ≠ ['.'] ∧ '/' ∉ p) :
    parsePath (PurePath.toStr ⟨b, ps⟩) = ⟨b, ps⟩ := by
  have hsep : ∀ p ∈ ps, '/' ∉ p := fun p hp => (h p hp).2.2
  have hfilter : List.filter (fun p => decide (p ≠ [] ∧ p ≠ ['.'])) ps = ps :=
    List.filter_eq_self.mpr (fun p hp => by
      rcases h p hp with ⟨h1, h2, _⟩
      simp [h1, h2])
  cases b with
  | true =>
    cases ps with
    | nil => decide
    | cons p0 ps2 =>
      show parsePath ⟨'/' :: joinSep '/' (p0 :: ps2)⟩ = ⟨true, p0 :: ps2⟩
      simp only [parsePath, PurePath.mk.injEq, pathPartsOf]
      refine ⟨rfl, ?_⟩
      show List.filter _ (splitc '/' ('/' :: joinSep '/' (p0 :: ps2))) = p0 :: ps2
      rw [splitc, if_pos rfl, splitc_joinSep '/' (p0 :: ps2) (by simp) hsep]
      rw [List.filter_cons_of_neg (by simp)]
      exact hfilter
  | false =>
    cases ps with
    | nil => decide
    | cons p0 ps2 =>
      have hp0 : p0 ≠ [] := (h p0 (List.mem_cons_self p0 ps2)).1
      have hrender : PurePath.toStr ⟨false, p0 :: ps2⟩ =
          ⟨joinSep '/' (p0 :: ps2)⟩ := by
        simp [PurePath.toStr, PurePath.render]
      rw [hrender]
      have hhead : ¬ ((joinSep '/' (p0 :: ps2)).head? = some '/') := by
        rw [joinSep_head '/' p0 ps2 hp0]
        cases p0 with
        | nil => exact absurd rfl hp0
        | cons x xs =>
          have hx : x ≠ '/' := fun e =>
            (hsep (x :: xs) (List.mem_cons_self _ _)) (e ▸ List.mem_cons_self x xs)
          simp [hx]
      simp only [parsePath, PurePath.mk.injEq, pathPartsOf]
      refine ⟨?_, ?_⟩
      · show decide ((joinSep '/' (p0 :: ps2)).head? = some '/') = false
        exact decide_eq_false hhead
      · show List.filter _ (splitc '/' (joinSep '/' (p0 :: ps2))) = p0 :: ps2
        rw [splitc_joinSep '/' (p0 :: ps2) (by simp) hsep]
        exact hfilter

/-- Claim C4: when no explicit output path is given on the command line,
the computed output path is the input path with its filename stem suffixed
by `_processed`, in the same parent directory and with the same extension
(the output's name is `stem ++ "_processed" ++ suffix`); for example, input
`talk.mp3` yields output `talk_processed.mp3`. -/
theorem c4_default_output_path (input : String) :
    (parsePath (defaultOutputFile input)).absolute = (parsePath input).absolute
  ∧ (parsePath (defaultOutputFile input)).parent = (parsePath input).parent
  ∧ (parsePath (defaultOutputFile input)).name =
      nameStem (parsePath input).name ++ "_processed".data ++
        nameSuffix (parsePath input).name
  ∧ defaultOutputFile "talk.mp3" = "talk_processed.mp3" := by
  set ip := parsePath input with hip
  set child := nameStem ip.name ++ "_processed".data ++ nameSuffix ip.name with hchild
  have hclean : ∀ p ∈ ip.parts, p ≠ [] ∧ p ≠ ['.'] ∧ '/' ∉ p := by
    intro p hp
    have hp2 : p ∈ (splitc '/' input.data).filter
        (fun q => decide (q ≠ [] ∧ q ≠ ['.'])) := hp
    rcases List.mem_filter.mp hp2 with ⟨hmem, hdec⟩
    have hq := of_decide_eq_true hdec
    exact ⟨hq.1, hq.2, splitc_sep_not_mem '/' input.data p hmem⟩
  have hname : '/' ∉ ip.name := by
    by_cases hnil : ip.parts = []
    · simp [PurePath.name, hnil]
    · exact (hclean _ (getLastD_mem ip.parts [] hnil)).2.2
  have hstem : '/' ∉ nameStem ip.name := fun hx =>
    hname (List.mem_of_mem_take (by simpa [nameStem] using hx))
  have hsuffix : '/' ∉ nameSuffix ip.name := by
    rw [nameSuffix]
    by_cases h1 : (splitc '.' ip.name).length ≤ 1
    · rw [if_pos h1]; simp
    · rw [if_neg h1]
      by_cases h2 : (splitc '.' ip.name).getLastD [] ≠ [] ∧
          joinSep '.' (splitc '.' ip.name).dropLast ≠ []
      · rw [if_pos h2]
        intro hx
        rcases List.mem_cons.mp hx with he | hx2
        · exact absurd he (by decide)
        · exact hname (mem_of_mem_splitc '.' ip.name _
            (getLastD_mem _ [] (splitc_ne_nil '.' ip.name)) '/' hx2)
      · rw [if_neg h2]; simp
  have hchildsep : '/' ∉ child := by
    rw [hchild]
    intro hx
    rcases List.mem_append.mp hx with hx1 | hx1
    · rcases List.mem_append.mp hx1 with hx2 | hx2
      · exact hstem hx2
      · exact absurd hx2 (by decide)
    · exact hsuffix hx1
  have hchildne : child ≠ [] := by
    rw [hchild]
    intro e
    have e1 := List.append_eq_nil.mp e
    have e2 := List.append_eq_nil.mp e1.1
    exact absurd e2.2 (by decide)
  have hchildnd : child ≠ ['.'] := by
    intro e
    have hlen := congrArg List.length e
    rw [hchild] at hlen
    simp only [List.length_append, List.length_cons, List.length_nil] at hlen
    have h10 : ("_processed".data).length = 10 := rfl
    omega
  have hchildhead : ¬ (child.head? = some '/') := fun e =>
    hchildsep (List.mem_of_mem_head? e)
  have hparts : pathPartsOf child = [child] := by
    rw [pathPartsOf, splitc_of_not_mem '/' child hchildsep,
      List.filter_cons_of_pos (by simp [hchildne, hchildnd])]
    rfl
  have hout : defaultOutputFile input =
      PurePath.toStr ⟨ip.absolute, ip.parts.dropLast ++ [child]⟩ := by
    rw [defaultOutputFile]
    show (PurePath.child ip.parent child).toStr = _
    rw [PurePath.child, if_neg hchildhead, hparts]
    rfl
  have hchildclean : ∀ p ∈ ip.parts.dropLast ++ [child],
      p ≠ [] ∧ p ≠ ['.'] ∧ '/' ∉ p := by
    intro p hp
    rcases List.mem_append.mp hp with hp1 | hp1
    · exact hclean p (List.mem_of_mem_dropLast hp1)
    · have := List.mem_singleton.mp hp1
      subst this
      exact ⟨hchildne, hchildnd, hchildsep⟩
  have hparse : parsePath (defaultOutputFile input) =
      ⟨ip.absolute, ip.parts.dropLast ++ [child]⟩ := by
    rw [hout]
    exact parsePath_toStr ip.absolute _ hchildclean
  refine ⟨?_, ?_, ?_, ?_⟩
  · rw [hparse]
  · rw [hparse, PurePath.parent, PurePath.parent]
    simp [List.dropLast_concat]
  · rw [hparse, PurePath.name]
    simp [List.getLastD_concat]
  · decide

/-- Claim C3: for every configuration, the filter chain places the
noise-reduction stage first, then the silence-removal stage, then the
equalization stages in their listed order, then the compressor stage, then
the loudness-normalization stage last, joined by the fixed separator ",". -/
theorem c3_stage_order (p : VoicePromptProcessor) :
    build_filter_chain p =
      String.intercalate ","
        ([p.noise_reduction, silenceremoveFilter p] ++ p.eq_filters ++
          [p.compressor, loudnormFilter p]) := by
  simp [build_filter_chain]

/-- Claim C10: the built filter chain does not depend on
`max_silence_duration` — any two configurations that differ only in that
field produce identical chain strings (the silence-removal stage's
`stop_silence` sub-parameter is taken from `silence_duration` instead). -/
theorem c10_max_silence_unused (p : VoicePromptProcessor) (v : String) :
    build_filter_chain { p with max_silence_duration := v } = build_filter_chain p := by
  rfl

/-- Claim C7: on successful processing, the megabyte-scaled size-reduction
computation of lines 154-156 equals the byte-level formula
`(inputSizeBytes - outputSizeBytes) / inputSizeBytes * 100`, in exact
rational arithmetic, for any nonzero input size. -/
theorem c7_size_reduction (i o : ℕ) (hi : 0 < i) :
    sizeReduction (i : ℚ) (o : ℚ) = (((i : ℚ) - (o : ℚ)) / (i : ℚ)) * 100 := by
  have hi' : (i : ℚ) ≠ 0 := Nat.cast_ne_zero.mpr hi.ne'
  unfold sizeReduction
  field_simp

/-- Witness for C7 at input size 2097152 bytes and output size 1048576
bytes. -/
theorem c7_size_reduction_witness :
    0 < 2097152 ∧
      sizeReduction ((2097152 : ℕ) : ℚ) ((1048576 : ℕ) : ℚ) =
        ((((2097152 : ℕ) : ℚ) - ((1048576 : ℕ) : ℚ)) / ((2097152 : ℕ) : ℚ)) * 100 :=
  ⟨by norm_num, c7_size_reduction 2097152 1048576 (by norm_num)⟩

/-- Claim C5: each command-line override (silence threshold, silence
duration, target loudness — all non-empty, i.e. truthy in Python) appears
verbatim in the corresponding stage parameters of the built chain:
the threshold in `start_threshold`/`stop_threshold`, the duration in
`start_silence`/`stop_silence`, and the loudness in the `loudnorm`
integrated target `I=`. -/
theorem c5_overrides_verbatim (a : Args)
    (ht : a.silence_threshold ≠ "") (hd : a.silence_duration ≠ "")
    (hl : a.target_loudness ≠ "") :
    silenceremoveFilter (effectiveConfig a) =
      "silenceremove=" ++ "start_periods=1:" ++
        "start_silence=" ++ a.silence_duration ++ ":" ++
        "start_threshold=" ++ a.silence_threshold ++ ":" ++
        "stop_periods=-1:" ++
        "stop_silence=" ++ a.silence_duration ++ ":" ++
        "stop_threshold=" ++ a.silence_threshold ++ ":" ++
        "detection=peak"
    ∧ loudnormFilter (effectiveConfig a) =
        "loudnorm=I=" ++ a.target_loudness ++ ":TP=-1.5:LRA=11"
    ∧ build_filter_chain (effectiveConfig a) =
        String.intercalate ","
          ["afftdn=nf=-25",
           "silenceremove=" ++ "start_periods=1:" ++
             "start_silence=" ++ a.silence_duration ++ ":" ++
             "start_threshold=" ++ a.silence_threshold ++ ":" ++
             "stop_periods=-1:" ++
             "stop_silence=" ++ a.silence_duration ++ ":" ++
             "stop_threshold=" ++ a.silence_threshold ++ ":" ++
             "detection=peak",
           "highpass=f=100",
           "lowpass=f=10000",
           "equalizer=f=150:t=q:w=1:g=-3",
           "equalizer=f=200:t=q:w=1:g=-2",
           "equalizer=f=3000:t=q:w=2:g=3",
           "acompressor=threshold=-20dB:ratio=4:attack=5:release=50",
           "loudnorm=I=" ++ a.target_loudness ++ ":TP=-1.5:LRA=11"] := by
  refine ⟨?_, ?_, ?_⟩ <;>
    simp [effectiveConfig, applyOverrides, ht, hd, hl, silenceremoveFilter,
      loudnormFilter, build_filter_chain, VoicePromptProcessor.new]

/-- Witness for C5 at overrides `-30dB`, `0.6`, `-18`. -/
theorem c5_overrides_verbatim_witness :
    ("-30dB" : String) ≠ "" ∧ ("0.6" : String) ≠ "" ∧ ("-18" : String) ≠ "" ∧
    (silenceremoveFilter (effectiveConfig
        { input := "in.mp3", output := none, verbose := false, analyze := false,
          silence_threshold := "-30dB", silence_duration := "0.6", target_loudness := "-18" }) =
      "silenceremove=" ++ "start_periods=1:" ++
        "start_silence=" ++ "0.6" ++ ":" ++
        "start_threshold=" ++ "-30dB" ++ ":" ++
        "stop_periods=-1:" ++
        "stop_silence=" ++ "0.6" ++ ":" ++
        "stop_threshold=" ++ "-30dB" ++ ":" ++
        "detection=peak"
    ∧ loudnormFilter (effectiveConfig
        { input := "in.mp3", output := none, verbose := false, analyze := false,
          silence_threshold := "-30dB", silence_duration := "0.6", target_loudness := "-18" }) =
        "loudnorm=I=" ++ "-18" ++ ":TP=-1.5:LRA=11"
    ∧ build_filter_chain (effectiveConfig
        { input := "in.mp3", output := none, verbose := false, analyze := false,
          silence_threshold := "-30dB", silence_duration := "0.6", target_loudness := "-18" }) =
        String.intercalate ","
          ["afftdn=nf=-25",
           "silenceremove=" ++ "start_periods=1:" ++
             "start_silence=" ++ "0.6" ++ ":" ++
             "start_threshold=" ++ "-30dB" ++ ":" ++
             "stop_periods=-1:" ++
             "stop_silence=" ++ "0.6" ++ ":" ++
             "stop_threshold=" ++ "-30dB" ++ ":" ++
             "detection=peak",
           "highpass=f=100",
           "lowpass=f=10000",
           "equalizer=f=150:t=q:w=1:g=-3",
           "equalizer=f=200:t=q:w=1:g=-2",
           "equalizer=f=3000:t=q:w=2:g=3",
           "acompressor=threshold=-20dB:ratio=4:attack=5:release=50",
           "loudnorm=I=" ++ "-18" ++ ":TP=-1.5:LRA=11"]) :=
  ⟨by decide, by decide, by decide,
    c5_overrides_verbatim
      { input := "in.mp3", output := none, verbose := false, analyze := false,
        silence_threshold := "-30dB", silence_duration := "0.6", target_loudness := "-18" }
      (by decide) (by decide) (by decide)⟩

/-- Claim C8: if the engine-availability probe fails, the run prints the
engine-missing message and exits 1 having spawned only the probe; the
result is a fixed constant — independent of the rest of the environment and
of every argument — so input validation, analysis and the processing
invocation are never attempted. -/
theorem c8_probe_failure_aborts (env : Env) (a : Args)
    (h : env.ffmpegAvailable = false) :
    mainRun env a =
      { exitCode := 1, spawned := [probeCmd], printed := [ffmpegMissingMsg] } := by
  simp [mainRun, check_ffmpeg, h]

/-- Witness for C8: a probe-failing environment with an ordinary
processing-mode argument vector. -/
theorem c8_probe_failure_aborts_witness :
    envProbeFail.ffmpegAvailable = false
  ∧ mainRun envProbeFail argsProcess =
      { exitCode := 1, spawned := [probeCmd], printed := [ffmpegMissingMsg] } :=
  ⟨rfl, c8_probe_failure_aborts envProbeFail argsProcess rfl⟩

/-- Claim C2 (amended): for every run that passes the engine probe and is
not in analysis mode, if the input path does not exist the run exits 1
after printing the input-not-found message, and no child process beyond
the probe is spawned. -/
theorem c2_input_not_found (env : Env) (a : Args)
    (hprobe : env.ffmpegAvailable = true) (hmode : a.analyze = false)
    (hex : env.fileExists a.input = false) :
    (mainRun env a).exitCode = 1
  ∧ (mainRun env a).spawned = [probeCmd]
  ∧ (mainRun env a).printed = [inputNotFoundMsg a.input] := by
  refine ⟨?_, ?_, ?_⟩ <;>
    simp [mainRun, check_ffmpeg, hprobe, hmode, process_audio, hex]

/-- Witness for C2 (amended): missing input in quiet processing mode. -/
theorem c2_input_not_found_witness :
    envNoInput.ffmpegAvailable = true
  ∧ argsMissing.analyze = false
  ∧ envNoInput.fileExists argsMissing.input = false
  ∧ ((mainRun envNoInput argsMissing).exitCode = 1
      ∧ (mainRun envNoInput argsMissing).spawned = [probeCmd]
      ∧ (mainRun envNoInput argsMissing).printed = [inputNotFoundMsg argsMissing.input]) :=
  ⟨rfl, rfl, rfl, c2_input_not_found envNoInput argsMissing rfl rfl rfl⟩

/-- Claim C2 counterexample: in analysis mode with a nonexistent input path
the run exits 0 — no failure result — and the input-not-found message is
never printed, refuting the claim as stated for that run. -/
theorem c2_counterexample :
    envNoInput.fileExists argsMissingAnalyze.input = false
  ∧ (mainRun envNoInput argsMissingAnalyze).exitCode = 0
  ∧ (mainRun envNoInput argsMissingAnalyze).printed.contains
      (inputNotFoundMsg argsMissingAnalyze.input) = false := by
  refine ⟨rfl, rfl, ?_⟩
  rfl

/-- Claim C1 (amended): the exit code is 1 when the engine probe fails, 1
when the input is not found in processing mode, 1 when the processing
invocation exits non-zero, and 0 on successful processing — but every
analysis-mode run exits 0, including one whose engine invocation fails. -/
theorem c1_exit_codes (env : Env) (a : Args) :
    (mainRun env a).exitCode =
      if env.ffmpegAvailable then
        if a.analyze then 0
        else if env.fileExists a.input then
          if (env.run (processCmd (build_filter_chain (effectiveConfig a))
              a.input (effOutput a) a.verbose)).exitCode = 0 then 0 else 1
        else 1
      else 1 := by
  cases h1 : env.ffmpegAvailable with
  | false => simp [mainRun, check_ffmpeg, h1]
  | true =>
    cases h2 : a.analyze with
    | true => simp [mainRun, check_ffmpeg, h1, h2]
    | false =>
      cases h3 : env.fileExists a.input with
      | false => simp [mainRun, check_ffmpeg, process_audio, h1, h2, h3]
      | true =>
        by_cases h4 : (env.run (processCmd (build_filter_chain (effectiveConfig a))
            a.input (effOutput a) a.verbose)).exitCode = 0 <;>
          simp [mainRun, check_ffmpeg, process_audio, h1, h2, h3, h4]

/-- Claim C1 counterexample: an analysis-mode run whose engine invocation
fails (child exit status 1) exits with code 0, not 1. -/
theorem c1_counterexample :
    (envEngineFail.run (analyzeCmd (effectiveConfig argsAnalyze) argsAnalyze.input)).exitCode ≠ 0
  ∧ (mainRun envEngineFail argsAnalyze).exitCode = 0 :=
  ⟨by decide, rfl⟩

/-- In both outcomes of `analyze_silence`, the only child spawned is the
analysis command. -/
theorem analyze_silence_spawned (env : Env) (p : VoicePromptProcessor)
    (input_file : String) :
    (analyze_silence env p input_file).spawned = [analyzeCmd p input_file] := by
  simp only [analyze_silence]
  split <;> rfl

/-- Claim C6: in analysis mode the spawned children are exactly the probe
and the analysis command — whose argv ends in the null muxer writing to
`-` and contains no output path — whatever the invocation outcome (the
environment is arbitrary), and the entire run result is independent of the
output argument; in particular the processing invocation is never reached. -/
theorem c6_analysis_no_output (env : Env) (a : Args)
    (hprobe : env.ffmpegAvailable = true) (hmode : a.analyze = true) :
    (mainRun env a).spawned =
      [probeCmd,
       ["ffmpeg", "-i", a.input, "-af",
        "silencedetect=noise=" ++ (effectiveConfig a).silence_threshold ++
          ":d=" ++ (effectiveConfig a).silence_duration,
        "-f", "null", "-"]]
  ∧ ∀ o : Option String, mainRun env { a with output := o } = mainRun env a := by
  constructor
  · have hs := analyze_silence_spawned env (effectiveConfig a) a.input
    simp [mainRun, check_ffmpeg, hprobe, hmode, hs, analyzeCmd]
  · intro o
    simp [mainRun, check_ffmpeg, hprobe, hmode, effectiveConfig, applyOverrides]

/-- Witness for C6: an analysis run whose engine invocation fails. -/
theorem c6_analysis_no_output_witness :
    envEngineFail.ffmpegAvailable = true
  ∧ argsAnalyze.analyze = true
  ∧ ((mainRun envEngineFail argsAnalyze).spawned =
      [probeCmd,
       ["ffmpeg", "-i", argsAnalyze.input, "-af",
        "silencedetect=noise=" ++ (effectiveConfig argsAnalyze).silence_threshold ++
          ":d=" ++ (effectiveConfig argsAnalyze).silence_duration,
        "-f", "null", "-"]]
      ∧ ∀ o : Option String,
          mainRun envEngineFail { argsAnalyze with output := o } =
            mainRun envEngineFail argsAnalyze) :=
  ⟨rfl, rfl, c6_analysis_no_output envEngineFail argsAnalyze rfl rfl⟩

/-- Claim C9 (amended): in quiet (non-verbose) processing mode, when the
engine invocation fails, the single user-facing message is the
child-process-error description naming the failed command and its exit
status; the child's captured stderr text is not part of it — the printed
output is a function of the command and the exit code only. -/
theorem c9_quiet_failure_message (env : Env) (a : Args)
    (hprobe : env.ffmpegAvailable = true) (hmode : a.analyze = false)
    (hquiet : a.verbose = false) (hex : env.fileExists a.input = true)
    (hfail : (env.run (processCmd (build_filter_chain (effectiveConfig a))
        a.input (effOutput a) false)).exitCode ≠ 0) :
    (mainRun env a).exitCode = 1
  ∧ (mainRun env a).printed =
      ["Error processing audio: " ++
        calledProcessErrorStr
          (processCmd (build_filter_chain (effectiveConfig a)) a.input (effOutput a) false)
          (env.run (processCmd (build_filter_chain (effectiveConfig a))
            a.input (effOutput a) false)).exitCode] := by
  constructor <;>
    simp [mainRun, check_ffmpeg, hprobe, hmode, hquiet, process_audio, hex, hfail]

/-- Witness for C9 (amended): a quiet processing run against the failing
engine environment. -/
theorem c9_quiet_failure_message_witness :
    envEngineFail.ffmpegAvailable = true
  ∧ argsProcess.analyze = false
  ∧ argsProcess.verbose = false
  ∧ envEngineFail.fileExists argsProcess.input = true
  ∧ (envEngineFail.run (processCmd (build_filter_chain (effectiveConfig argsProcess))
      argsProcess.input (effOutput argsProcess) false)).exitCode ≠ 0
  ∧ ((mainRun envEngineFail argsProcess).exitCode = 1
      ∧ (mainRun envEngineFail argsProcess).printed =
          ["Error processing audio: " ++
            calledProcessErrorStr
              (processCmd (build_filter_chain (effectiveConfig argsProcess))
                argsProcess.input (effOutput argsProcess) false)
              (envEngineFail.run (processCmd (build_filter_chain (effectiveConfig argsProcess))
                argsProcess.input (effOutput argsProcess) false)).exitCode]) :=
  ⟨rfl, rfl, rfl, rfl, by simp [envEngineFail],
    c9_quiet_failure_message envEngineFail argsProcess rfl rfl rfl rfl
      (by simp [envEngineFail])⟩

/-- Claim C9 counterexample: in a quiet processing run whose engine
invocation fails with `Conversion failed!` on stderr, the printed error
message does not contain that stderr text, refuting "the captured stderr is
surfaced verbatim in the user-facing error message". -/
theorem c9_counterexample :
    (envEngineFail.run (processCmd (build_filter_chain (effectiveConfig argsProcess))
        argsProcess.input "out.mp3" false)).stderrText = "Conversion failed!"
  ∧ (mainRun envEngineFail argsProcess).exitCode = 1
  ∧ (mainRun envEngineFail argsProcess).printed =
      ["Error processing audio: " ++
        calledProcessErrorStr
          (processCmd (build_filter_chain (effectiveConfig argsProcess))
            argsProcess.input "out.mp3" false) 1]
  ∧ occursInS "Conversion failed!"
      ("Error processing audio: " ++
        calledProcessErrorStr
          (processCmd (build_filter_chain (effectiveConfig argsProcess))
            argsProcess.input "out.mp3" false) 1) = false := by
  refine ⟨rfl, rfl, ?_, ?_⟩ <;> decide
